import Mathlib

/-!
Verification of the TF-K8s scenario runner
(`tf-k8s/scripts/scenario-runner.py`) against its design specification.

The Python script is shallowly embedded: every external effect (shell
command execution, cluster operations, clock reads) is passed in as an
explicit argument, and each Python function becomes a Lean function over
these inputs.  Optional YAML fields are `Option` values so that the
`dict.get(key, default)` idioms of the source are modelled exactly.
-/

namespace ScenarioRunner

/-- Outcome of one shell command, modelling
`subprocess.check_output(cmd, shell=True)`: either captured output or a
`CalledProcessError` carrying a message. -/
inductive CmdResult where
  | ok (output : String)
  | err (msg : String)
deriving DecidableEq, Repr

/-- A scenario step as parsed from YAML: `step.get('name', ...)`,
`step.get('commands', [])`, `step.get('critical', True)`.  Fields the
YAML may omit are `Option`s. -/
structure Step where
  name : Option String
  commands : List String
  critical : Option Bool
deriving DecidableEq, Repr

/-- A success criterion as parsed from YAML: `criterion.get('name', ...)`
and `criterion.get('threshold', 0)`. -/
structure Criterion where
  name : Option String
  threshold : Option Int
deriving DecidableEq, Repr

/-- The scenario document fields used by `run_scenario` / `setup_scenario`:
`metadata.id`, `steps`, `success_criteria`. -/
structure Scenario where
  metadata_id : Option String
  steps : List Step
  success_criteria : List Criterion
deriving DecidableEq, Repr

/-- Result record for one step: `{'name': ..., 'success': ..., 'output': ...}`. -/
structure StepResult where
  name : String
  success : Bool
  output : List String
deriving DecidableEq, Repr

/-- Result record for one criterion:
`{'name': ..., 'threshold': ..., 'actual': ..., 'success': ...}`. -/
structure CriterionResult where
  name : String
  threshold : Int
  actual : Int
  success : Bool
deriving DecidableEq, Repr

/-- The record built by `run_scenario`: scenario id, timestamps, step
results, criterion results and the overall `success` flag. -/
structure ExecutionResult where
  scenario_id : String
  start_time : String
  steps : List StepResult
  success : Bool
  criteria : List CriterionResult
  end_time : String
deriving DecidableEq, Repr

/-- The literal placeholder `'{namespace}'` substituted into commands
(braces written as escapes). -/
def nsPlaceholder : String := "\x7bnamespace\x7d"

/-- Replace each non-overlapping occurrence of `need` by `repl`, left to
right, over character lists; the fuel argument (instantiated with the
input length) only makes the recursion structural. -/
def replaceLoop (need repl : List Char) : Nat → List Char → List Char
  | _, [] => []
  | 0, l => l
  | fuel + 1, c :: rest =>
    if need.isPrefixOf (c :: rest) then
      repl ++ replaceLoop need repl fuel ((c :: rest).drop need.length)
    else
      c :: replaceLoop need repl fuel rest

/-- Python's `s.replace(pat, repl)` for the non-empty patterns the
runner uses (`'{namespace}'` and `'_'`). -/
def pyReplace (s pat repl : String) : String :=
  if pat.data.isEmpty then s
  else ⟨replaceLoop pat.data repl.data s.data.length s.data⟩

/-- Python's `s.lower()`. -/
def pyLower (s : String) : String := ⟨s.data.map Char.toLower⟩

/-- The inner command loop of `run_scenario` (lines 139-152): substitute
the namespace into each command, run it, collect output; on the first
failure record `"ERROR: ..."`, mark the step failed and stop the loop.
Returns the step's success flag and its collected output. -/
def runStepCmds (exec : String → CmdResult) (ns : String) :
    List String → Bool × List String
  | [] => (true, [])
  | cmd :: rest =>
    match exec (pyReplace cmd nsPlaceholder ns) with
    | CmdResult.ok out =>
        let r := runStepCmds exec ns rest
        (r.1, out :: r.2)
    | CmdResult.err msg => (false, ["ERROR: " ++ msg])

/-- Build the `StepResult` dict appended at line 154, with the default
name `f"Step {i+1}"`. -/
def mkStepResult (step : Step) (i : Nat) (res : Bool × List String) : StepResult :=
  { name := step.name.getD ("Step " ++ toString (i + 1))
    success := res.1
    output := res.2 }

/-- The step loop of `run_scenario` (lines 130-162): run each step in
order; after recording a step's result, abort the loop when the step
failed and `step.get('critical', True)` holds.  Returns the list of
recorded `StepResult`s and the running `results['success']` flag
restricted to steps (commands set it `False` at line 150). -/
def runSteps (exec : String → CmdResult) (ns : String) :
    List Step → Nat → List StepResult × Bool
  | [], _ => ([], true)
  | step :: rest, i =>
    let res := runStepCmds exec ns step.commands
    let sr := mkStepResult step i res
    if !res.1 && step.critical.getD true then
      ([sr], false)
    else
      let r := runSteps exec ns rest (i + 1)
      (sr :: r.1, res.1 && r.2)

/-- One iteration of the criteria loop (lines 168-182).  The source sets
`actual = 0` and `criterion_success = True` unconditionally — a
placeholder flagged by its own comment ("In a real implementation, you
would extract the actual value from test results"). -/
def evalCriterion (c : Criterion) : CriterionResult :=
  { name := c.name.getD "Unnamed criterion"
    threshold := c.threshold.getD 0
    actual := 0
    success := true }

/-- The criteria loop of `run_scenario` (lines 164-185), threading the
`results['success']` flag: each criterion's result is appended, and a
failed criterion clears the flag. -/
def evalCriteria (ok : Bool) : List Criterion → List CriterionResult × Bool
  | [] => ([], ok)
  | c :: rest =>
    let cr := evalCriterion c
    let ok2 := if !cr.success then false else ok
    let r := evalCriteria ok2 rest
    (cr :: r.1, r.2)

/-- `run_scenario` (lines 116-188).  The command executor and the two
clock reads are explicit inputs; everything else follows the source. -/
def run_scenario (exec : String → CmdResult) (ns : String)
    (startT endT : String) (scenario : Scenario) : ExecutionResult :=
  let s := runSteps exec ns scenario.steps 0
  let c := evalCriteria s.2 scenario.success_criteria
  { scenario_id := scenario.metadata_id.getD "unknown"
    start_time := startT
    steps := s.1
    success := c.2
    criteria := c.1
    end_time := endT }

/-- An external cluster operation issued by `setup_scenario`. -/
inductive K8sAction where
  | createNamespace (ns : String)
  | applyManifest (file : String) (ns : String)
deriving DecidableEq, Repr

/-- The namespace name computed at line 101:
`f"tf-k8s-{scenario_id.lower().replace('_', '-')}"`. -/
def namespaceName (scenario_id : String) : String :=
  "tf-k8s-" ++ pyReplace (pyLower scenario_id) "_" "-"

/-- `setup_scenario` (lines 91-114) after the YAML has been parsed into a
`Scenario`: it computes the namespace name, issues a namespace-creation
command, then applies every manifest file found in the scenario's `k8s`
directory (passed in as `manifests`).  It performs no validation of the
scenario's steps; the returned list records the cluster operations in
the order the source issues them. -/
def setup_scenario (scenario : Scenario) (manifests : List String) :
    List K8sAction × String :=
  let sid := scenario.metadata_id.getD "unknown"
  let ns := namespaceName sid
  (K8sAction.createNamespace ns ::
    manifests.map (fun m => K8sAction.applyManifest m ns), ns)

/-- Substring test over character lists, modelling Python's
`needle in haystack` on strings. -/
def strContains (hay need : String) : Bool :=
  hay.data.tails.any (fun t => need.data.isPrefixOf t)

/-- The deployment-step check of the separate pre-flight validator
(`.bot/scripts/validate-failing-test.py`, lines 113-115): a step list
has a deploy step when some step has a command containing
`"kubectl apply"`. -/
def hasDeployStep (steps : List Step) : Bool :=
  steps.any (fun s => s.commands.any (fun c => strContains c "kubectl apply"))

/-- The validator errors produced by that check: the message appended
when no deployment step is found, and nothing otherwise. -/
def deployStepErrors (steps : List Step) : List String :=
  if hasDeployStep steps then [] else ["No deployment step found"]

/-- The static group table `SCENARIO_GROUPS` (lines 19-57). -/
def SCENARIO_GROUPS : List (String × List String) :=
  [("slo-core",
    ["TF-SLO-VOL_DataVolumeReduction_SteadyWorkload",
     "TF-SLO-SER_ProcessCardinalityReduction_MixedWorkload",
     "TF-SLO-TOP5_DiagnosticIntegrity_TopCPUProcesses"]),
   ("slo-perf",
    ["TF-SLO-CPU_CollectorPerf_LoadTest_10Kdps_cAdvisor",
     "TF-SLO-RAM_CollectorPerf_LoadTest_10Kdps_HighState_cAdvisor",
     "TF-SLO-LAT_CollectorPipelineLatency_SteadyWorkload"]),
   ("slo-alert",
    ["TF-SLO-ALR_Recall_CPUSpikeReplay",
     "TF-SLO-ALR_Precision_NoSpikeWindow"]),
   ("mfr-basic",
    ["TF-MFR-SC.1_IngestionSources",
     "TF-MFR-SC.3_ExportSchema",
     "TF-MFR-SC.4_AttributeHandling"]),
   ("mfr-advanced",
    ["TF-MFR-SC.1.4_PidEnrichment_HostmetricsVariations",
     "TF-MFR-SC.5_Deduplication_MultiSourceMultiNode",
     "TF-MFR-SC.2_AggregationLogic_DiskIONetworkIO"]),
   ("mfr-components",
    ["TF-MFR-EP_AllRequirements",
     "TF-MFR-LA_AllRequirements"]),
   ("regression",
    ["TF-REG-Filter_HighCard_Memory_Scale",
     "TF-LINT-OTTL_StrictErrorMode"]),
   ("security",
    ["TF-SEC-1_SBOM_Validation",
     "TF-SEC-2_ImageSignature_Validation",
     "TF-SEC-3_EdgeProbeHardening"])]

/-- Key lookup in the group table, modelling `group in SCENARIO_GROUPS`
followed by `SCENARIO_GROUPS[group]`. -/
def lookupGroup (g : String) : List (String × List String) → Option (List String)
  | [] => none
  | (k, v) :: rest => if g = k then some v else lookupGroup g rest

/-- The path glob pattern instantiated at lines 63 and 79:
`tf-k8s/scenarios/enabled/<sid>/scenario_definition.yaml`. -/
def enabledPath (sid : String) : String :=
  "tf-k8s/scenarios/enabled/" ++ sid ++ "/scenario_definition.yaml"

/-- `find_scenarios` (lines 59-89).  The filesystem is abstracted as the
list of scenario directory names under `enabled/` that contain a
`scenario_definition.yaml`; an exact-path glob is then a membership
test and the wildcard glob `enabled/<group>*/...` is a prefix filter
over the directory names.  (The `pending/` lookup at lines 66-72 only
chooses which warning is printed; the returned list is empty either
way, so it needs no input here.) -/
def find_scenarios (enabledDirs : List String)
    (group : String) (scenario_id : Option String) : List String :=
  match scenario_id with
  | some sid =>
      if sid ∈ enabledDirs then [enabledPath sid] else []
  | none =>
      match lookupGroup group SCENARIO_GROUPS with
      | some ids => (ids.filter (· ∈ enabledDirs)).map enabledPath
      | none => (enabledDirs.filter (fun d => group.data.isPrefixOf d.data)).map enabledPath

/-- The result file path built by `save_results` (lines 195-200):
`f"{output_dir}/{scenario_id}_{timestamp}.json"`, where `timestamp` is
`datetime.now().strftime("%Y%m%d-%H%M%S")` (second resolution). -/
def savePath (output_dir scenario_id timestamp : String) : String :=
  output_dir ++ "/" ++ scenario_id ++ "_" ++ timestamp ++ ".json"

/-- JSON values, modelling the documents `json.dump` writes and
`json.load` reads back. -/
inductive JValue where
  | jbool (b : Bool)
  | jint (n : Int)
  | jstr (s : String)
  | jarr (xs : List JValue)
  | jobj (fields : List (String × JValue))

/-- First value bound to a key in a JSON object's field list. -/
def jlookup (k : String) : List (String × JValue) → Option JValue
  | [] => none
  | (k2, v) :: rest => if k = k2 then some v else jlookup k rest

/-- Serialization of a `StepResult` dict. -/
def encodeStep (s : StepResult) : JValue :=
  JValue.jobj
    [("name", JValue.jstr s.name),
     ("success", JValue.jbool s.success),
     ("output", JValue.jarr (s.output.map JValue.jstr))]

/-- Serialization of a `CriterionResult` dict. -/
def encodeCriterion (c : CriterionResult) : JValue :=
  JValue.jobj
    [("name", JValue.jstr c.name),
     ("threshold", JValue.jint c.threshold),
     ("actual", JValue.jint c.actual),
     ("success", JValue.jbool c.success)]

/-- Serialization of the `results` dict written by `save_results`, with
its keys in insertion order. -/
def encodeResult (r : ExecutionResult) : JValue :=
  JValue.jobj
    [("scenario_id", JValue.jstr r.scenario_id),
     ("start_time", JValue.jstr r.start_time),
     ("steps", JValue.jarr (r.steps.map encodeStep)),
     ("success", JValue.jbool r.success),
     ("criteria", JValue.jarr (r.criteria.map encodeCriterion)),
     ("end_time", JValue.jstr r.end_time)]

/-- Deserialization of a string. -/
def decodeStr : JValue → Option String
  | JValue.jstr s => some s
  | _ => none

/-- Decode each element of a JSON array, failing if any element fails. -/
def decodeList (g : JValue → Option α) : List JValue → Option (List α)
  | [] => some []
  | x :: xs =>
    match g x, decodeList g xs with
    | some a, some as => some (a :: as)
    | _, _ => none

/-- Deserialization of a `StepResult`. -/
def decodeStep : JValue → Option StepResult
  | JValue.jobj fs =>
      match jlookup "name" fs, jlookup "success" fs, jlookup "output" fs with
      | some (JValue.jstr n), some (JValue.jbool b), some (JValue.jarr os) =>
          match decodeList decodeStr os with
          | some outs => some { name := n, success := b, output := outs }
          | none => none
      | _, _, _ => none
  | _ => none

/-- Deserialization of a `CriterionResult`. -/
def decodeCriterion : JValue → Option CriterionResult
  | JValue.jobj fs =>
      match jlookup "name" fs, jlookup "threshold" fs,
            jlookup "actual" fs, jlookup "success" fs with
      | some (JValue.jstr n), some (JValue.jint t),
        some (JValue.jint a), some (JValue.jbool b) =>
          some { name := n, threshold := t, actual := a, success := b }
      | _, _, _, _ => none
  | _ => none

/-- Deserialization of an `ExecutionResult`. -/
def decodeResult : JValue → Option ExecutionResult
  | JValue.jobj fs =>
      match jlookup "scenario_id" fs, jlookup "start_time" fs,
            jlookup "steps" fs, jlookup "success" fs,
            jlookup "criteria" fs, jlookup "end_time" fs with
      | some (JValue.jstr sid), some (JValue.jstr st),
        some (JValue.jarr ss), some (JValue.jbool ok),
        some (JValue.jarr cs), some (JValue.jstr et) =>
          match decodeList decodeStep ss, decodeList decodeCriterion cs with
          | some steps, some crits =>
              some { scenario_id := sid, start_time := st, steps := steps,
                     success := ok, criteria := crits, end_time := et }
          | _, _ => none
      | _, _, _, _, _, _ => none
  | _ => none

/-- Outcome of running one scenario file inside `main`'s try block:
either the `ExecutionResult` produced by `run_scenario`, or an exception
raised anywhere in setup/run/save/cleanup. -/
inductive ScenarioOutcome where
  | done (r : ExecutionResult)
  | raised (msg : String)
deriving Repr

/-- Whether one scenario leaves `main`'s `success` flag intact: an
exception or `results['success'] == False` clears it (lines 239-247). -/
def outcomeOk : ScenarioOutcome → Bool
  | ScenarioOutcome.done r => r.success
  | ScenarioOutcome.raised _ => false

/-- The scenario loop of `main` (lines 227-247) folded over the found
files: the final `success` flag. -/
def runAll (runFile : String → ScenarioOutcome) : List String → Bool
  | [] => true
  | f :: rest => outcomeOk (runFile f) && runAll runFile rest

/-- The exit code of `main` (lines 217-251): `1` when no scenario files
were found (line 225) or some scenario failed (line 251), `0` otherwise
(normal return). -/
def mainExit (runFile : String → ScenarioOutcome) (files : List String) : Nat :=
  if files.isEmpty then 1
  else if runAll runFile files then 0 else 1

/-- Whether a command invocation succeeded. -/
def CmdResult.isOk : CmdResult → Bool
  | CmdResult.ok _ => true
  | CmdResult.err _ => false

/-- The captured output of a successful command (empty on failure). -/
def CmdResult.okOutput : CmdResult → String
  | CmdResult.ok o => o
  | CmdResult.err _ => ""

/-- The running success flag of the step loop equals the conjunction of
the recorded steps' success flags. -/
theorem runSteps_snd_eq_all (exec : String → CmdResult) (ns : String) :
    ∀ (steps : List Step) (i : Nat),
      (runSteps exec ns steps i).2 =
        (runSteps exec ns steps i).1.all (fun r => r.success) := by
  intro steps
  induction steps with
  | nil => intro i; rfl
  | cons step rest ih =>
    intro i
    simp only [runSteps]
    cases hc : (runStepCmds exec ns step.commands).1 with
    | false =>
      cases hcr : step.critical.getD true with
      | true => simp [hc, hcr, mkStepResult]
      | false => simp [hc, hcr, mkStepResult, ih]
    | true => simp [hc, mkStepResult, ih]

/-- The criteria loop appends one result per criterion and leaves the
overall flag unchanged (every placeholder criterion result succeeds). -/
theorem evalCriteria_eq (cs : List Criterion) :
    ∀ ok : Bool, evalCriteria ok cs = (cs.map evalCriterion, ok) := by
  induction cs with
  | nil => intro ok; rfl
  | cons c rest ih => intro ok; simp [evalCriteria, evalCriterion, ih]

/-- Every criterion result produced by the placeholder evaluation has a
true success flag. -/
theorem criteria_all_success (cs : List Criterion) :
    (cs.map evalCriterion).all (fun r => r.success) = true := by
  induction cs with
  | nil => rfl
  | cons c rest ih => simp [evalCriterion, ih]

/-- C3: the overall `success` flag of the `ExecutionResult` built by
`run_scenario` equals the conjunction of all recorded step success
flags and all recorded criterion success flags. -/
theorem overall_success_is_conjunction (exec : String → CmdResult)
    (ns startT endT : String) (scen : Scenario) :
    (run_scenario exec ns startT endT scen).success =
      ((run_scenario exec ns startT endT scen).steps.all (fun r => r.success) &&
       (run_scenario exec ns startT endT scen).criteria.all (fun r => r.success)) := by
  simp [run_scenario, evalCriteria_eq, runSteps_snd_eq_all, criteria_all_success]

/-- C10: the criteria list of the `ExecutionResult` is always the full
evaluation of the scenario's declared success criteria — one
`CriterionResult` per criterion — independently of how the steps went
(in particular after a critical-step abort). -/
theorem criteria_evaluated_regardless_of_steps (exec : String → CmdResult)
    (ns startT endT : String) (scen : Scenario) :
    (run_scenario exec ns startT endT scen).criteria =
      scen.success_criteria.map evalCriterion ∧
    (run_scenario exec ns startT endT scen).criteria.length =
      scen.success_criteria.length := by
  constructor
  · simp [run_scenario, evalCriteria_eq]
  · simp [run_scenario, evalCriteria_eq]

/-- After a failing critical step, the remaining steps are irrelevant:
the step loop produces the same output as if the list ended at that
step. -/
theorem runSteps_crit_fail_append (exec : String → CmdResult) (ns : String)
    (s : Step) (hfail : (runStepCmds exec ns s.commands).1 = false)
    (hcrit : s.critical.getD true = true) :
    ∀ (pre post : List Step) (i : Nat),
      runSteps exec ns (pre ++ s :: post) i = runSteps exec ns (pre ++ [s]) i := by
  intro pre
  induction pre with
  | nil => intro post i; simp [runSteps, hfail, hcrit]
  | cons p pre ih =>
    intro post i
    simp only [List.cons_append, runSteps, List.append_eq]
    rw [ih]

/-- The step loop records at most one result per input step. -/
theorem runSteps_length_le (exec : String → CmdResult) (ns : String) :
    ∀ (l : List Step) (i : Nat), (runSteps exec ns l i).1.length ≤ l.length := by
  intro l
  induction l with
  | nil => intro i; simp [runSteps]
  | cons step rest ih =>
    intro i
    simp only [runSteps]
    cases hb : (!(runStepCmds exec ns step.commands).1 && step.critical.getD true) with
    | true => simp [hb]
    | false => simpa [hb] using Nat.succ_le_succ (ih (i + 1))

/-- When every step's commands succeed, the step loop records one result
per step. -/
theorem runSteps_all_ok_length (exec : String → CmdResult) (ns : String) :
    ∀ (l : List Step) (i : Nat),
      (∀ t ∈ l, (runStepCmds exec ns t.commands).1 = true) →
      (runSteps exec ns l i).1.length = l.length := by
  intro l
  induction l with
  | nil => intro i _; rfl
  | cons step rest ih =>
    intro i h
    have hs : (runStepCmds exec ns step.commands).1 = true := h step (by simp)
    simp only [runSteps, hs]
    simpa using ih (i + 1) (fun t ht => h t (by simp [ht]))

/-- C2: a failing step whose `critical` flag is true — including a step
that omits the flag, since `step.get('critical', True)` defaults to
true — aborts the scenario: the steps after it are never executed (the
run is identical to one where they are absent) and no result for them
appears in the `StepResult` list. -/
theorem critical_step_failure_aborts_remaining (exec : String → CmdResult)
    (ns : String) (pre : List Step) (s : Step) (post : List Step) (i : Nat)
    (hfail : (runStepCmds exec ns s.commands).1 = false)
    (hcrit : s.critical.getD true = true) :
    runSteps exec ns (pre ++ s :: post) i = runSteps exec ns (pre ++ [s]) i ∧
    (runSteps exec ns (pre ++ s :: post) i).1.length ≤ pre.length + 1 := by
  refine ⟨runSteps_crit_fail_append exec ns s hfail hcrit pre post i, ?_⟩
  rw [runSteps_crit_fail_append exec ns s hfail hcrit pre post i]
  calc (runSteps exec ns (pre ++ [s]) i).1.length
      ≤ (pre ++ [s]).length := runSteps_length_le exec ns (pre ++ [s]) i
    _ = pre.length + 1 := by simp

/-- C5: a failing step whose `critical` flag is false does not abort:
the loop records its (failed) result and then runs the remaining steps
exactly as it otherwise would, so — when no later step aborts on its
own — every later step executes and contributes a result. -/
theorem noncritical_failure_does_not_abort (exec : String → CmdResult)
    (ns : String) (s : Step) (post : List Step) (i : Nat)
    (hfail : (runStepCmds exec ns s.commands).1 = false)
    (hcrit : s.critical.getD true = false)
    (hpost : ∀ t ∈ post, (runStepCmds exec ns t.commands).1 = true) :
    runSteps exec ns (s :: post) i =
      (mkStepResult s i (runStepCmds exec ns s.commands) ::
        (runSteps exec ns post (i + 1)).1, false) ∧
    (runSteps exec ns (s :: post) i).1.length = post.length + 1 := by
  constructor
  · simp [runSteps, hfail, hcrit]
  · simp [runSteps, hfail, hcrit, runSteps_all_ok_length exec ns post (i + 1) hpost]

/-- C6: when a command of a step fails, the step's success flag is
false, the error marker `"ERROR: ..."` is appended as the step's last
output chunk (after the outputs of the commands that ran), and the
remaining commands of the step are not executed — the result is the
same as if the step's command list ended at the failing command. -/
theorem command_failure_stops_within_step (exec : String → CmdResult)
    (ns : String) (pre : List String) (cmd : String) (rest : List String)
    (msg : String)
    (hfail : exec (pyReplace cmd nsPlaceholder ns) = CmdResult.err msg)
    (hpre : ∀ c ∈ pre, (exec (pyReplace c nsPlaceholder ns)).isOk = true) :
    runStepCmds exec ns (pre ++ cmd :: rest) = runStepCmds exec ns (pre ++ [cmd]) ∧
    runStepCmds exec ns (pre ++ cmd :: rest) =
      (false, pre.map (fun c => (exec (pyReplace c nsPlaceholder ns)).okOutput) ++
        ["ERROR: " ++ msg]) := by
  induction pre with
  | nil => exact ⟨by simp [runStepCmds, hfail], by simp [runStepCmds, hfail]⟩
  | cons p pre ih =>
    have hp : (exec (pyReplace p nsPlaceholder ns)).isOk = true := hpre p (by simp)
    obtain ⟨ih1, ih2⟩ := ih (fun c hc => hpre c (by simp [hc]))
    cases hx : exec (pyReplace p nsPlaceholder ns) with
    | ok out =>
      constructor
      · simp only [List.cons_append, runStepCmds, hx, List.append_eq]
        rw [ih1]
      · simp only [List.cons_append, runStepCmds, hx, List.append_eq, List.map_cons]
        rw [ih2]
        simp [CmdResult.okOutput, hx]
    | err m => rw [hx] at hp; simp [CmdResult.isOk] at hp

/-- A shell in which every command exits non-zero. -/
def execFailAll : String → CmdResult := fun _ => CmdResult.err "exit status 1"

/-- A shell in which exactly the verifier invocation succeeds. -/
def execVerifyOnly : String → CmdResult := fun c =>
  if c = "python verify.py report.json" then CmdResult.ok "PASS"
  else CmdResult.err "exit status 1"

/-- A deploy step that omits `critical` (so it defaults to true). -/
def stepDeployDefault : Step :=
  { name := some "deploy"
    commands := ["kubectl apply -f m.yaml -n \x7bnamespace\x7d"]
    critical := none }

/-- A verification step. -/
def stepVerify : Step :=
  { name := some "verify"
    commands := ["python verify.py report.json"]
    critical := none }

/-- A wait step explicitly marked non-critical. -/
def stepWaitNoncrit : Step :=
  { name := some "wait", commands := ["sleep 30"], critical := some false }

/-- Witness for C2 at a concrete run: the deploy step (with `critical`
omitted) fails under `execFailAll`, and the verify step after it is
dropped. -/
theorem critical_step_failure_aborts_remaining_witness :
    runSteps execFailAll "tf-k8s-x" ([] ++ stepDeployDefault :: [stepVerify]) 0 =
      runSteps execFailAll "tf-k8s-x" ([] ++ [stepDeployDefault]) 0 ∧
    (runSteps execFailAll "tf-k8s-x" ([] ++ stepDeployDefault :: [stepVerify]) 0).1.length ≤
      List.length ([] : List Step) + 1 :=
  critical_step_failure_aborts_remaining execFailAll "tf-k8s-x" []
    stepDeployDefault [stepVerify] 0 rfl rfl

/-- Witness for C5 at a concrete run: the non-critical wait step fails
under `execVerifyOnly`, and the verify step still runs and is
recorded. -/
theorem noncritical_failure_does_not_abort_witness :
    runSteps execVerifyOnly "tf-k8s-x" (stepWaitNoncrit :: [stepVerify]) 0 =
      (mkStepResult stepWaitNoncrit 0
          (runStepCmds execVerifyOnly "tf-k8s-x" stepWaitNoncrit.commands) ::
        (runSteps execVerifyOnly "tf-k8s-x" [stepVerify] (0 + 1)).1, false) ∧
    (runSteps execVerifyOnly "tf-k8s-x" (stepWaitNoncrit :: [stepVerify]) 0).1.length =
      List.length [stepVerify] + 1 :=
  noncritical_failure_does_not_abort execVerifyOnly "tf-k8s-x"
    stepWaitNoncrit [stepVerify] 0 (by decide) rfl (by decide)

/-- Witness for C6 at a concrete run: after a succeeding verifier
command, `sleep 30` fails under `execVerifyOnly`; the step stops there
with the error marker appended and the trailing command is ignored. -/
theorem command_failure_stops_within_step_witness :
    runStepCmds execVerifyOnly "tf-k8s-x"
        (["python verify.py report.json"] ++ "sleep 30" :: ["echo done"]) =
      runStepCmds execVerifyOnly "tf-k8s-x"
        (["python verify.py report.json"] ++ ["sleep 30"]) ∧
    runStepCmds execVerifyOnly "tf-k8s-x"
        (["python verify.py report.json"] ++ "sleep 30" :: ["echo done"]) =
      (false,
        ["python verify.py report.json"].map
          (fun c => (execVerifyOnly (pyReplace c nsPlaceholder "tf-k8s-x")).okOutput) ++
        ["ERROR: " ++ "exit status 1"]) :=
  command_failure_stops_within_step execVerifyOnly "tf-k8s-x"
    ["python verify.py report.json"] "sleep 30" ["echo done"] "exit status 1"
    (by decide) (by decide)

/-- The scenario loop's final flag is the conjunction of the per-file
outcomes. -/
theorem runAll_eq_all (rf : String → ScenarioOutcome) :
    ∀ l : List String, runAll rf l = l.all (fun f => outcomeOk (rf f)) := by
  intro l
  induction l with
  | nil => rfl
  | cons f rest ih => simp [runAll, ih]

/-- C7: the process exit code is 0 exactly when at least one scenario
file was found and every executed scenario's overall result is success;
in every other case (including an empty find result) it is 1, and no
other exit code occurs. -/
theorem exit_code_zero_iff_all_scenarios_succeed (rf : String → ScenarioOutcome)
    (files : List String) :
    (mainExit rf files = 0 ↔
      (files.isEmpty = false ∧ files.all (fun f => outcomeOk (rf f)) = true)) ∧
    (mainExit rf files = 0 ∨ mainExit rf files = 1) := by
  unfold mainExit
  rw [runAll_eq_all]
  cases he : files.isEmpty with
  | true => simp [he]
  | false =>
    cases ha : files.all (fun f => outcomeOk (rf f)) with
    | true => simp [he, ha]
    | false => simp [he, ha]

/-- C8: for a group name missing from the static table (and no scenario
id), `find_scenarios` falls back to a wildcard path-prefix match over
the enabled scenario directories — no error — and yields the empty list
exactly when no directory name has the group as a prefix. -/
theorem unknown_group_wildcard_fallback (enabledDirs : List String) (group : String)
    (h : lookupGroup group SCENARIO_GROUPS = none) :
    find_scenarios enabledDirs group none =
      (enabledDirs.filter (fun d => group.data.isPrefixOf d.data)).map enabledPath ∧
    (find_scenarios enabledDirs group none = [] ↔
      enabledDirs.filter (fun d => group.data.isPrefixOf d.data) = []) := by
  unfold find_scenarios
  rw [h]
  exact ⟨rfl, by simp⟩

/-- Witness for C8: `"custom-group"` is not a key of the group table;
resolution degrades to the prefix search, which here matches nothing
and returns the empty list. -/
theorem unknown_group_wildcard_fallback_witness :
    find_scenarios ["TF-SLO-VOL_DataVolumeReduction_SteadyWorkload"] "custom-group" none =
      (["TF-SLO-VOL_DataVolumeReduction_SteadyWorkload"].filter
        (fun d => "custom-group".data.isPrefixOf d.data)).map enabledPath ∧
    (find_scenarios ["TF-SLO-VOL_DataVolumeReduction_SteadyWorkload"] "custom-group" none = [] ↔
      ["TF-SLO-VOL_DataVolumeReduction_SteadyWorkload"].filter
        (fun d => "custom-group".data.isPrefixOf d.data) = []) :=
  unknown_group_wildcard_fallback ["TF-SLO-VOL_DataVolumeReduction_SteadyWorkload"]
    "custom-group" (by decide)

/-- C1 (code defect, lines 168-185): the criteria loop never compares
the observed value with the threshold.  It records `actual = 0` and
`success = True` for every criterion, so a criterion with threshold 10
is marked successful although its recorded observed value 0 lies
strictly below the threshold — contradicting the specified
"success iff observed ≥ threshold" and the inline comment announcing a
real extraction of the observed value. -/
theorem criteria_placeholder_passes_below_threshold :
    (evalCriterion { name := some "x", threshold := some 10 }).success = true ∧
    (evalCriterion { name := some "x", threshold := some 10 }).actual <
      (evalCriterion { name := some "x", threshold := some 10 }).threshold ∧
    (run_scenario (fun _ => CmdResult.ok "") "ns" "t0" "t1"
        { metadata_id := some "TF-SLO-VOL_X", steps := [],
          success_criteria := [{ name := some "x", threshold := some 10 }] }).criteria =
      [{ name := "x", threshold := 10, actual := 0, success := true }] :=
  ⟨rfl, by decide, by decide⟩

/-- Decoding a mapped array recovers the original list when the element
decoder inverts the element encoder. -/
theorem decodeList_map (f : α → JValue) (g : JValue → Option α)
    (h : ∀ a, g (f a) = some a) : ∀ l : List α, decodeList g (l.map f) = some l := by
  intro l
  induction l with
  | nil => rfl
  | cons x xs ih => simp [decodeList, h, ih]

/-- A serialized `StepResult` deserializes to itself. -/
theorem decodeStep_encode (s : StepResult) : decodeStep (encodeStep s) = some s := by
  simp [decodeStep, encodeStep, jlookup,
    decodeList_map JValue.jstr decodeStr (fun a => rfl)]

/-- A serialized `CriterionResult` deserializes to itself. -/
theorem decodeCriterion_encode (c : CriterionResult) :
    decodeCriterion (encodeCriterion c) = some c := by
  simp [decodeCriterion, encodeCriterion, jlookup]

/-- A serialized `ExecutionResult` deserializes to itself. -/
theorem decodeResult_encode (r : ExecutionResult) :
    decodeResult (encodeResult r) = some r := by
  simp [decodeResult, encodeResult, jlookup,
    decodeList_map encodeStep decodeStep decodeStep_encode,
    decodeList_map encodeCriterion decodeCriterion decodeCriterion_encode]

/-- C9: the result path is `output_dir/scenario_id_timestamp.json`, so
two results for different scenario identifiers saved in the same second
(same timestamp string) get distinct paths; and the serialized result
document deserializes back to the saved `ExecutionResult`. -/
theorem save_path_distinct_and_result_roundtrip
    (dir id1 id2 ts : String) (r : ExecutionResult) (h : id1 ≠ id2) :
    savePath dir id1 ts ≠ savePath dir id2 ts ∧
    decodeResult (encodeResult r) = some r := by
  refine ⟨fun heq => h ?_, decodeResult_encode r⟩
  have hd := congrArg String.data heq
  simp only [savePath, String.data_append] at hd
  exact String.ext
    (List.append_cancel_left
      (List.append_cancel_right (List.append_cancel_right (List.append_cancel_right hd))))

/-- Witness for C9 at concrete data: two different scenario ids in the
same second give different report paths, and a concrete result
round-trips through serialization. -/
theorem save_path_distinct_and_result_roundtrip_witness :
    savePath "tf-k8s/reports" "TF-SLO-VOL_A" "20251012-101500" ≠
      savePath "tf-k8s/reports" "TF-SLO-SER_B" "20251012-101500" ∧
    decodeResult (encodeResult
      { scenario_id := "TF-SLO-VOL_A"
        start_time := "2025-10-12T10:14:58"
        steps := [{ name := "deploy", success := true, output := ["applied"] }]
        success := true
        criteria := [{ name := "x", threshold := 10, actual := 0, success := true }]
        end_time := "2025-10-12T10:15:00" }) = some
      { scenario_id := "TF-SLO-VOL_A"
        start_time := "2025-10-12T10:14:58"
        steps := [{ name := "deploy", success := true, output := ["applied"] }]
        success := true
        criteria := [{ name := "x", threshold := 10, actual := 0, success := true }]
        end_time := "2025-10-12T10:15:00" } :=
  save_path_distinct_and_result_roundtrip "tf-k8s/reports"
    "TF-SLO-VOL_A" "TF-SLO-SER_B" "20251012-101500" _ (by decide)

/-- A concrete scenario none of whose step commands contains the
resource-apply invocation `"kubectl apply"`. -/
def noApplyScenario : Scenario :=
  { metadata_id := some "TF-TEST-1_NoApply"
    steps :=
      [{ name := some "wait", commands := ["sleep 5"], critical := some false },
       { name := some "check",
         commands := ["kubectl get pods -n \x7bnamespace\x7d"], critical := none },
       { name := some "verify",
         commands := ["python verify.py out.json"], critical := none }]
    success_criteria := [{ name := some "pass_rate", threshold := some 1 }] }

/-- C4 counterexample: for a concrete scenario with zero apply-pattern
steps, loading does not fail — `setup_scenario` has no `DefinitionError`
path at all — and its very first (and, with no manifests, only) cluster
operation is the namespace creation, so namespace setup is attempted
rather than prevented. -/
theorem noapply_scenario_setup_reaches_namespace_creation :
    hasDeployStep noApplyScenario.steps = false ∧
    (setup_scenario noApplyScenario []).1 =
      [K8sAction.createNamespace "tf-k8s-tf-test-1-noapply"] :=
  ⟨by decide, by decide⟩

/-- C4 amended: the runner never checks for a resource-apply step; for
any scenario without one, setup proceeds and issues the namespace
creation as its first cluster operation.  The `"No deployment step
found"` error exists only in the separate pre-flight validator
(`validate-failing-test.py`), which is not invoked during execution. -/
theorem noapply_check_only_in_validator (scen : Scenario) (manifests : List String)
    (h : hasDeployStep scen.steps = false) :
    deployStepErrors scen.steps = ["No deployment step found"] ∧
    (setup_scenario scen manifests).1.head? =
      some (K8sAction.createNamespace
        (namespaceName (scen.metadata_id.getD "unknown"))) := by
  refine ⟨?_, rfl⟩
  simp [deployStepErrors, h]

/-- Witness for the amended C4 at the concrete no-apply scenario. -/
theorem noapply_check_only_in_validator_witness :
    deployStepErrors noApplyScenario.steps = ["No deployment step found"] ∧
    (setup_scenario noApplyScenario ["cm.yaml"]).1.head? =
      some (K8sAction.createNamespace
        (namespaceName (noApplyScenario.metadata_id.getD "unknown"))) :=
  noapply_check_only_in_validator noApplyScenario ["cm.yaml"] (by decide)

end ScenarioRunner
